import Mathlib

/-!
Shallow embedding of `src/packages/indexer/src/jobs/metadata-index/process-queue-by-slug.ts`.

The worker pops up to `countTotal` refresh requests from the pending backlog,
fans out `processSlug` over all of them, aggregates fetched metadata, and then
either reschedules itself (extending a distributed lock) or releases the lock.

The embedding is purely functional: every external effect of one invocation
(fetch calls issued, backlog pushes, downstream queue dispatches, lock actions,
self re-enqueue) is recorded in an explicit state / result record.  The JS
`Promise.all` fan-out over `processSlug` is modelled as a left fold: the fetch
of each request is a parameter function, and the shared mutable variables
`retry`, `rateLimitExpiredIn` and `metadata` are threaded through the fold.
A rejection escaping `processSlug` (the unguarded `error.response.data` read
in the non-429 branch when the error carries no response) is modelled by the
`thrown` outcome, which makes the whole invocation fail before the aggregate
write dispatch and the reschedule step.
-/

namespace ProcessQueueBySlug

/-- `RefreshTokenBySlug` from `models/pending-refresh-tokens-by-slug`:
one unit of work in the pending backlog. -/
structure RefreshTokenBySlug where
  slug : String
  contract : String
  collection : String
  continuation : Option String
  deriving DecidableEq, Repr

/-- Metadata items are opaque to the scheduler; it only concatenates them. -/
abbrev MetadataItem := String

/-- The `response` object attached to an axios-style error raised by
`MetadataApi.getTokensMetadataBySlug`: an HTTP status and the provider's
`expires_in` field of the response data (read only in the 429 branch). -/
structure ErrorResponse where
  status : Nat
  expiresIn : Nat
  deriving DecidableEq, Repr

/-- Outcome of one `MetadataApi.getTokensMetadataBySlug` call: a page of
metadata with an optional continuation, or a raised error that may or may not
carry a `response` object (network errors carry none). -/
inductive FetchResult where
  | success (metadata : List MetadataItem) (continuation : Option String)
  | failure (response : Option ErrorResponse)
  deriving DecidableEq, Repr

/-- A `kind: "full-collection"` job pushed to the metadata-index fetch queue;
`collection` is whatever string the worker put into `data.collection`. -/
structure FullCollectionJob where
  method : String
  collection : String
  deriving DecidableEq, Repr

/-- A job pushed to the collection-updates metadata queue via
`collectionUpdatesMetadata.addToQueue(contract, tokenId, method, 0)`. -/
structure CollectionMetadataUpdate where
  contract : String
  tokenId : String
  method : String
  priority : Nat
  deriving DecidableEq, Repr

/-- The invocation-local mutable state of one worker run, together with the
log of external effects issued by the fan-out:
`retry`, `rateLimitExpiredIn` and `metadata` are the worker's shared
variables; `fetchCalls` records every `MetadataApi` call (contract, slug,
continuation); `backlogPushes` records every `pendingRefreshTokensBySlug.add`
(request, prioritized); `fetchQueueJobs` every full-collection job sent to
`metadataIndexFetch.addToQueue`; `collectionMetadataUpdates` every job sent to
`collectionUpdatesMetadata.addToQueue`. -/
structure InvocationState where
  retry : Bool
  rateLimitExpiredIn : Nat
  metadata : List MetadataItem
  fetchCalls : List (String × String × Option String)
  backlogPushes : List (RefreshTokenBySlug × Bool)
  fetchQueueJobs : List FullCollectionJob
  collectionMetadataUpdates : List CollectionMetadataUpdate
  deriving DecidableEq, Repr

/-- The state at the start of one invocation. -/
def initialState : InvocationState :=
  { retry := false
    rateLimitExpiredIn := 0
    metadata := []
    fetchCalls := []
    backlogPushes := []
    fetchQueueJobs := []
    collectionMetadataUpdates := [] }

/-- Result of one `processSlug` call: normal completion, or an exception
escaping it (which rejects that promise of the `Promise.all`). -/
inductive SlugOutcome where
  | ok (s : InvocationState)
  | thrown (s : InvocationState)
  deriving DecidableEq, Repr

/-- The single hardcoded contract address skipped by `processSlug`. -/
def deniedContract : String := "0x0e3a2a1f2146d86a604adc220b4967a898d7fe07"

/-- `addToTokenRefreshQueueAndUpdateCollectionMetadata`: dispatches a
full-collection job for the request's internal `collection` identifier to the
fetch queue and a collection-metadata-update (with the token id looked up via
`Tokens.getSingleToken(collection)`, modelled by `getSingleToken`). -/
def addToTokenRefreshQueueAndUpdateCollectionMetadata (method : String)
    (getSingleToken : String → String) (r : RefreshTokenBySlug)
    (s : InvocationState) : InvocationState :=
  { s with
    fetchQueueJobs := s.fetchQueueJobs ++ [⟨method, r.collection⟩]
    collectionMetadataUpdates := s.collectionMetadataUpdates ++
      [⟨r.contract, getSingleToken r.collection, method, 0⟩] }

/-- `processSlug`: skip the denylisted contract; otherwise fetch.  On success
with an empty metadata list, take the unresolvable-slug path and return.  On
success with a continuation, set `retry` and push the continuation request,
prioritized; then append the metadata.  On a 429 error, raise the cooldown to
`max(current, expires_in, 5)` and push the original request, prioritized.  On
any other error carrying a response, dispatch a full-collection job for the
request's `contract`.  An error carrying no response reaches the
`error.response.data` read in the else branch, which itself throws. -/
def processSlug (fetch : RefreshTokenBySlug → FetchResult) (method : String)
    (getSingleToken : String → String) (r : RefreshTokenBySlug)
    (s : InvocationState) : SlugOutcome :=
  if r.contract = deniedContract then
    .ok s
  else
    let s1 := { s with fetchCalls := s.fetchCalls ++ [(r.contract, r.slug, r.continuation)] }
    match fetch r with
    | .success metadata continuation =>
        if metadata.length = 0 then
          .ok (addToTokenRefreshQueueAndUpdateCollectionMetadata method getSingleToken r s1)
        else
          let s2 :=
            match continuation with
            | some c =>
                { s1 with
                  retry := true
                  backlogPushes := s1.backlogPushes ++
                    [((⟨r.slug, r.contract, r.collection, some c⟩ : RefreshTokenBySlug), true)] }
            | none => s1
          .ok { s2 with metadata := s2.metadata ++ metadata }
    | .failure (some er) =>
        if er.status = 429 then
          .ok { s1 with
            rateLimitExpiredIn := max (max s1.rateLimitExpiredIn er.expiresIn) 5
            backlogPushes := s1.backlogPushes ++ [(r, true)] }
        else
          .ok { s1 with fetchQueueJobs := s1.fetchQueueJobs ++ [⟨method, r.contract⟩] }
    | .failure none =>
        .thrown s1

/-- Folds `processSlug` over the popped batch (one serialization of the
`Promise.all` fan-out).  The Bool is true when some item's promise rejected;
JavaScript does not cancel the sibling promises, so the remaining items still
run and their state effects still happen, but the invocation as a whole
rejects. -/
def processAll (fetch : RefreshTokenBySlug → FetchResult) (method : String)
    (getSingleToken : String → String) :
    List RefreshTokenBySlug → InvocationState → InvocationState × Bool
  | [], s => (s, false)
  | r :: rs, s =>
      match processSlug fetch method getSingleToken r s with
      | .ok s1 => processAll fetch method getSingleToken rs s1
      | .thrown s1 => ((processAll fetch method getSingleToken rs s1).1, true)

/-- Everything one worker invocation did: the final fan-out state, whether the
invocation failed with an uncaught rejection, the single aggregate dispatch to
the metadata write queue (none when it was never reached), the TTL of the
`extendLock` attempt (none when not attempted), the delay in milliseconds of
the self re-enqueue (none when not enqueued), and whether the lock was
released. -/
structure InvocationResult where
  state : InvocationState
  threw : Bool
  writeQueueDispatch : Option (List MetadataItem)
  lockExtendAttempt : Option Nat
  enqueueDelayMs : Option Nat
  lockReleased : Bool
  deriving DecidableEq, Repr

/-- The worker body.  `maxParallelTokenCollectionSlugRefreshJobs` is the
config constant; `refreshTokensBySlug` is the batch returned by
`pendingRefreshTokensBySlug.get(countTotal)`; `extendLockSucceeds` is what
`extendLock` would return; `fetch` and `getSingleToken` model the external
collaborators.  Empty pop releases the lock and returns.  Otherwise the
fan-out runs; if it rejected, the invocation fails before the aggregate write
and the reschedule step.  Otherwise the aggregate is dispatched, and the
worker either extends the lock with TTL `60 * 5 + rateLimitExpiredIn` and (on
success only) re-enqueues itself with delay `rateLimitExpiredIn * 1000` ms, or
releases the lock. -/
def runWorker (maxParallelTokenCollectionSlugRefreshJobs : Nat)
    (fetch : RefreshTokenBySlug → FetchResult)
    (getSingleToken : String → String) (extendLockSucceeds : Bool)
    (refreshTokensBySlug : List RefreshTokenBySlug) : InvocationResult :=
  let count := 1
  let countTotal := maxParallelTokenCollectionSlugRefreshJobs * count
  if refreshTokensBySlug.isEmpty then
    { state := initialState
      threw := false
      writeQueueDispatch := none
      lockExtendAttempt := none
      enqueueDelayMs := none
      lockReleased := true }
  else
    let res := processAll fetch "opensea" getSingleToken refreshTokensBySlug initialState
    let s := res.1
    if res.2 then
      { state := s
        threw := true
        writeQueueDispatch := none
        lockExtendAttempt := none
        enqueueDelayMs := none
        lockReleased := false }
    else
      if s.rateLimitExpiredIn ≠ 0 ∨ refreshTokensBySlug.length = countTotal ∨ s.retry = true then
        if extendLockSucceeds then
          { state := s
            threw := false
            writeQueueDispatch := some s.metadata
            lockExtendAttempt := some (60 * 5 + s.rateLimitExpiredIn)
            enqueueDelayMs := some (s.rateLimitExpiredIn * 1000)
            lockReleased := false }
        else
          { state := s
            threw := false
            writeQueueDispatch := some s.metadata
            lockExtendAttempt := some (60 * 5 + s.rateLimitExpiredIn)
            enqueueDelayMs := none
            lockReleased := false }
      else
        { state := s
          threw := false
          writeQueueDispatch := some s.metadata
          lockExtendAttempt := none
          enqueueDelayMs := none
          lockReleased := true }

/-! Concrete requests and collaborators used by witnesses and counterexamples. -/

/-- A denylisted request. -/
def deniedReq : RefreshTokenBySlug :=
  ⟨"boredapes", deniedContract, "collection-denied", none⟩

/-- A request carrying a continuation, used for the rate-limit claims. -/
def rlReq : RefreshTokenBySlug := ⟨"azuki", "0xaaa", "collection-azuki", some "cur"⟩

/-- A request used for the empty-metadata claims. -/
def contReq : RefreshTokenBySlug := ⟨"doodles", "0xbbb", "collection-doodles", none⟩

/-- A request that already carries a continuation, used for the
continuation-requeue claims. -/
def contReq2 : RefreshTokenBySlug := ⟨"meebits", "0xccc", "collection-meebits", some "page1"⟩

/-- A request whose fetch raises an error carrying no response object. -/
def norespReq : RefreshTokenBySlug := ⟨"clonex", "0xddd", "collection-clonex", none⟩

/-- Claim C8: a popped request whose contract is on the denylist is skipped
entirely: `processSlug` performs no fetch call, pushes nothing back to the
backlog, dispatches nothing downstream, and raises no error — the invocation
state is returned unchanged. -/
theorem processSlug_denylisted (fetch : RefreshTokenBySlug → FetchResult)
    (method : String) (getSingleToken : String → String)
    (r : RefreshTokenBySlug) (s : InvocationState)
    (h : r.contract = deniedContract) :
    processSlug fetch method getSingleToken r s = .ok s := by
  simp [processSlug, h]

/-- Witness for C8 at a concrete denylisted request. -/
theorem processSlug_denylisted_witness :
    processSlug (fun _ => .failure none) "opensea" (fun _ => "0") deniedReq initialState =
      .ok initialState :=
  processSlug_denylisted (fun _ => .failure none) "opensea" (fun _ => "0") deniedReq
    initialState rfl

/-- Claim C4: on a 429 response the cooldown becomes
`max(previous, expires_in, 5)` — hence at least 5 and at least `expires_in` —
and the original request (continuation included) is pushed back to the
backlog, prioritized, unmodified. -/
theorem processSlug_rateLimited (fetch : RefreshTokenBySlug → FetchResult)
    (method : String) (getSingleToken : String → String)
    (r : RefreshTokenBySlug) (s : InvocationState) (er : ErrorResponse)
    (hc : r.contract ≠ deniedContract) (hf : fetch r = .failure (some er))
    (hst : er.status = 429) :
    processSlug fetch method getSingleToken r s =
      .ok { s with
        fetchCalls := s.fetchCalls ++ [(r.contract, r.slug, r.continuation)]
        rateLimitExpiredIn := max (max s.rateLimitExpiredIn er.expiresIn) 5
        backlogPushes := s.backlogPushes ++ [(r, true)] } ∧
    5 ≤ max (max s.rateLimitExpiredIn er.expiresIn) 5 ∧
    er.expiresIn ≤ max (max s.rateLimitExpiredIn er.expiresIn) 5 := by
  refine ⟨?_, le_max_right _ _, le_trans (le_max_right _ _) (le_max_left _ _)⟩
  simp [processSlug, hc, hf, hst]

/-- Witness for C4: with `expires_in = 2` the cooldown becomes 5, with
`expires_in = 30` it becomes 30; both push back the original request with its
continuation, prioritized. -/
theorem processSlug_rateLimited_witness :
    (processSlug (fun _ => .failure (some ⟨429, 2⟩)) "opensea" (fun _ => "0")
        rlReq initialState =
      .ok { initialState with
        fetchCalls := [("0xaaa", "azuki", some "cur")]
        rateLimitExpiredIn := 5
        backlogPushes := [(rlReq, true)] }) ∧
    (processSlug (fun _ => .failure (some ⟨429, 30⟩)) "opensea" (fun _ => "0")
        rlReq initialState =
      .ok { initialState with
        fetchCalls := [("0xaaa", "azuki", some "cur")]
        rateLimitExpiredIn := 30
        backlogPushes := [(rlReq, true)] }) := by
  have h2 := processSlug_rateLimited (fun _ => .failure (some ⟨429, 2⟩)) "opensea"
    (fun _ => "0") rlReq initialState ⟨429, 2⟩ (by decide) rfl rfl
  have h30 := processSlug_rateLimited (fun _ => .failure (some ⟨429, 30⟩)) "opensea"
    (fun _ => "0") rlReq initialState ⟨429, 30⟩ (by decide) rfl rfl
  exact ⟨h2.1.trans (by decide), h30.1.trans (by decide)⟩

/-- Claim C1 (counterexample): a fetch succeeding with empty metadata but the
non-empty continuation "abc" still takes the unresolvable-slug path — a
full-collection refresh and a collection-metadata-update are dispatched, the
request is not re-enqueued, and the retry flag stays false. -/
theorem processSlug_emptyWithContinuation_counterexample :
    processSlug (fun _ => .success [] (some "abc")) "opensea" (fun _ => "tok7")
        contReq initialState =
      .ok { retry := false
            rateLimitExpiredIn := 0
            metadata := []
            fetchCalls := [("0xbbb", "doodles", none)]
            backlogPushes := []
            fetchQueueJobs := [⟨"opensea", "collection-doodles"⟩]
            collectionMetadataUpdates := [⟨"0xbbb", "tok7", "opensea", 0⟩] } := by
  rfl

/-- Claim C1 (amended): a successful fetch with an empty metadata list always
takes the unresolvable-slug path, whether or not a continuation is present:
one full-collection refresh for the request's internal collection identifier
and one collection-metadata-update are dispatched, the request is not
re-enqueued, and the retry flag is unchanged. -/
theorem processSlug_emptyMetadata (fetch : RefreshTokenBySlug → FetchResult)
    (method : String) (getSingleToken : String → String)
    (r : RefreshTokenBySlug) (s : InvocationState) (cont : Option String)
    (hc : r.contract ≠ deniedContract) (hf : fetch r = .success [] cont) :
    processSlug fetch method getSingleToken r s =
      .ok { s with
        fetchCalls := s.fetchCalls ++ [(r.contract, r.slug, r.continuation)]
        fetchQueueJobs := s.fetchQueueJobs ++ [⟨method, r.collection⟩]
        collectionMetadataUpdates := s.collectionMetadataUpdates ++
          [⟨r.contract, getSingleToken r.collection, method, 0⟩] } := by
  simp [processSlug, hc, hf, addToTokenRefreshQueueAndUpdateCollectionMetadata]

/-- Witness for the amended C1 at a concrete request and continuation. -/
theorem processSlug_emptyMetadata_witness :
    processSlug (fun _ => .success [] (some "xyz")) "opensea" (fun _ => "tok8")
        contReq2 initialState =
      .ok { initialState with
        fetchCalls := [("0xccc", "meebits", some "page1")]
        fetchQueueJobs := [⟨"opensea", "collection-meebits"⟩]
        collectionMetadataUpdates := [⟨"0xccc", "tok8", "opensea", 0⟩] } :=
  (processSlug_emptyMetadata (fun _ => .success [] (some "xyz")) "opensea"
    (fun _ => "tok8") contReq2 initialState (some "xyz") (by decide) rfl).trans (by decide)

/-- Claim C5 (counterexample): a fetch that yields the continuation "page2"
together with an empty metadata list re-queues nothing at all — the
unresolvable-slug path runs instead, so no request with the new continuation
is pushed. -/
theorem processSlug_continuationLost_counterexample :
    processSlug (fun _ => .success [] (some "page2")) "opensea" (fun _ => "tok9")
        contReq2 initialState =
      .ok { retry := false
            rateLimitExpiredIn := 0
            metadata := []
            fetchCalls := [("0xccc", "meebits", some "page1")]
            backlogPushes := []
            fetchQueueJobs := [⟨"opensea", "collection-meebits"⟩]
            collectionMetadataUpdates := [⟨"0xccc", "tok9", "opensea", 0⟩] } := by
  rfl

/-- Claim C5 (amended): for a fetch succeeding with a NON-EMPTY metadata list
and a continuation, the re-queued request keeps the original slug, contract
and collection, carries the new continuation, and is pushed prioritized; the
retry flag is set and the metadata is appended to the aggregate. -/
theorem processSlug_continuation (fetch : RefreshTokenBySlug → FetchResult)
    (method : String) (getSingleToken : String → String)
    (r : RefreshTokenBySlug) (s : InvocationState)
    (ms : List MetadataItem) (c : String)
    (hc : r.contract ≠ deniedContract) (hf : fetch r = .success ms (some c))
    (hne : ms ≠ []) :
    processSlug fetch method getSingleToken r s =
      .ok { s with
        retry := true
        metadata := s.metadata ++ ms
        fetchCalls := s.fetchCalls ++ [(r.contract, r.slug, r.continuation)]
        backlogPushes := s.backlogPushes ++
          [((⟨r.slug, r.contract, r.collection, some c⟩ : RefreshTokenBySlug), true)] } := by
  simp [processSlug, hc, hf, hne]

/-- Witness for the amended C5 at a concrete request: slug, contract and
collection are preserved and the continuation is replaced by the new one. -/
theorem processSlug_continuation_witness :
    processSlug (fun _ => .success ["m1"] (some "page2")) "opensea" (fun _ => "0")
        contReq2 initialState =
      .ok { initialState with
        retry := true
        metadata := ["m1"]
        fetchCalls := [("0xccc", "meebits", some "page1")]
        backlogPushes :=
          [((⟨"meebits", "0xccc", "collection-meebits", some "page2"⟩ :
              RefreshTokenBySlug), true)] } :=
  (processSlug_continuation (fun _ => .success ["m1"] (some "page2")) "opensea"
    (fun _ => "0") contReq2 initialState ["m1"] "page2" (by decide) rfl
    (by decide)).trans (by decide)

/-- Claim C10 (counterexample): a non-rate-limit error carrying no response
object dispatches no full-collection refresh at all — the catch handler itself
throws (reading `error.response.data`) before reaching the dispatch. -/
theorem processSlug_noResponse_counterexample :
    processSlug (fun _ => .failure none) "opensea" (fun _ => "0") norespReq initialState =
      .thrown { initialState with fetchCalls := [("0xddd", "clonex", none)] } := by
  rfl

/-- Claim C10 (amended): a fetch error carrying a response with a non-429
status dispatches a full-collection refresh whose `collection` field is the
request's on-chain CONTRACT address, whereas the unresolvable-slug path
(successful fetch, empty metadata) dispatches one whose `collection` field is
the request's internal COLLECTION identifier. -/
theorem processSlug_fullCollectionTarget (fetch : RefreshTokenBySlug → FetchResult)
    (method : String) (getSingleToken : String → String)
    (r : RefreshTokenBySlug) (s : InvocationState)
    (hc : r.contract ≠ deniedContract) :
    (∀ er : ErrorResponse, fetch r = .failure (some er) → er.status ≠ 429 →
      processSlug fetch method getSingleToken r s =
        .ok { s with
          fetchCalls := s.fetchCalls ++ [(r.contract, r.slug, r.continuation)]
          fetchQueueJobs := s.fetchQueueJobs ++ [⟨method, r.contract⟩] }) ∧
    (∀ cont : Option String, fetch r = .success [] cont →
      processSlug fetch method getSingleToken r s =
        .ok { s with
          fetchCalls := s.fetchCalls ++ [(r.contract, r.slug, r.continuation)]
          fetchQueueJobs := s.fetchQueueJobs ++ [⟨method, r.collection⟩]
          collectionMetadataUpdates := s.collectionMetadataUpdates ++
            [⟨r.contract, getSingleToken r.collection, method, 0⟩] }) := by
  constructor
  · intro er hf hst
    simp [processSlug, hc, hf, hst]
  · intro cont hf
    simp [processSlug, hc, hf, addToTokenRefreshQueueAndUpdateCollectionMetadata]

/-- Witness for the amended C10: a 500 error dispatches the refresh for the
contract address, an empty success dispatches it for the collection id. -/
theorem processSlug_fullCollectionTarget_witness :
    (processSlug (fun _ => .failure (some ⟨500, 0⟩)) "opensea" (fun _ => "0")
        contReq initialState =
      .ok { initialState with
        fetchCalls := [("0xbbb", "doodles", none)]
        fetchQueueJobs := [⟨"opensea", "0xbbb"⟩] }) ∧
    (processSlug (fun _ => .success [] none) "opensea" (fun _ => "tokA")
        contReq initialState =
      .ok { initialState with
        fetchCalls := [("0xbbb", "doodles", none)]
        fetchQueueJobs := [⟨"opensea", "collection-doodles"⟩]
        collectionMetadataUpdates := [⟨"0xbbb", "tokA", "opensea", 0⟩] }) := by
  have he := (processSlug_fullCollectionTarget (fun _ => .failure (some ⟨500, 0⟩))
    "opensea" (fun _ => "0") contReq initialState (by decide)).1 ⟨500, 0⟩ rfl (by decide)
  have hs := (processSlug_fullCollectionTarget (fun _ => .success [] none)
    "opensea" (fun _ => "tokA") contReq initialState (by decide)).2 none rfl
  exact ⟨he.trans (by decide), hs.trans (by decide)⟩

/-- Claim C6: when the backlog pop returns no requests, the invocation
releases the lock and terminates immediately: no fetch calls, no backlog
pushes, no downstream dispatches, no aggregate write dispatch, no lock-extend
attempt and no next invocation enqueued. -/
theorem runWorker_emptyBacklog (cfg : Nat) (fetch : RefreshTokenBySlug → FetchResult)
    (getSingleToken : String → String) (extendLockSucceeds : Bool) :
    runWorker cfg fetch getSingleToken extendLockSucceeds [] =
      { state := initialState
        threw := false
        writeQueueDispatch := none
        lockExtendAttempt := none
        enqueueDelayMs := none
        lockReleased := true } := by
  rfl

/-- Claim C3: after a fan-out that did not throw, another run is requested iff
the cooldown is positive, or the popped count equals the computed batch size
`cfg * 1`, or the retry flag was set; in that case the lock extension is
attempted with TTL `300 + cooldown` seconds and, only if it succeeds, the next
invocation is enqueued with a delay of `cooldown` seconds (`cooldown * 1000`
milliseconds); if the condition is false the lock is released instead. -/
theorem runWorker_reschedule (cfg : Nat) (fetch : RefreshTokenBySlug → FetchResult)
    (getSingleToken : String → String) (extendLockSucceeds : Bool)
    (popped : List RefreshTokenBySlug) (s : InvocationState)
    (hne : popped ≠ [])
    (hs : processAll fetch "opensea" getSingleToken popped initialState = (s, false)) :
    ((runWorker cfg fetch getSingleToken extendLockSucceeds popped).lockExtendAttempt ≠ none ↔
      (s.rateLimitExpiredIn ≠ 0 ∨ popped.length = cfg * 1 ∨ s.retry = true)) ∧
    ((runWorker cfg fetch getSingleToken extendLockSucceeds popped).lockExtendAttempt ≠ none →
      (runWorker cfg fetch getSingleToken extendLockSucceeds popped).lockExtendAttempt =
          some (300 + s.rateLimitExpiredIn) ∧
        (extendLockSucceeds = true →
          (runWorker cfg fetch getSingleToken extendLockSucceeds popped).enqueueDelayMs =
            some (s.rateLimitExpiredIn * 1000)) ∧
        (extendLockSucceeds = false →
          (runWorker cfg fetch getSingleToken extendLockSucceeds popped).enqueueDelayMs =
            none)) ∧
    ((runWorker cfg fetch getSingleToken extendLockSucceeds popped).lockExtendAttempt = none →
      (runWorker cfg fetch getSingleToken extendLockSucceeds popped).lockReleased = true ∧
        (runWorker cfg fetch getSingleToken extendLockSucceeds popped).enqueueDelayMs = none) := by
  have hE : popped.isEmpty = false := by
    simpa [List.isEmpty_iff] using hne
  by_cases hcond : ¬s.rateLimitExpiredIn = 0 ∨ popped.length = cfg ∨ s.retry = true
  · cases extendLockSucceeds
    · simp [runWorker, hE, hs, hcond]
    · simp [runWorker, hE, hs, hcond]
  · simp [runWorker, hE, hs, hcond]

/-- Witness for C3, matching the rate-limit scenario: one popped request whose
fetch reports 429 with `expires_in = 20` leads to a lock-extend attempt with
TTL 320 seconds and, the extension succeeding, a re-enqueue after 20000 ms. -/
theorem runWorker_reschedule_witness :
    (runWorker 5 (fun _ => .failure (some ⟨429, 20⟩)) (fun _ => "0") true
        [rlReq]).lockExtendAttempt = some 320 ∧
    (runWorker 5 (fun _ => .failure (some ⟨429, 20⟩)) (fun _ => "0") true
        [rlReq]).enqueueDelayMs = some 20000 := by
  have h := runWorker_reschedule 5 (fun _ => .failure (some ⟨429, 20⟩)) (fun _ => "0")
    true [rlReq]
    { retry := false
      rateLimitExpiredIn := 20
      metadata := []
      fetchCalls := [("0xaaa", "azuki", some "cur")]
      backlogPushes := [(rlReq, true)]
      fetchQueueJobs := []
      collectionMetadataUpdates := [] }
    (by decide) (by decide)
  have hne' := h.1.mpr (Or.inl (by decide))
  exact ⟨((h.2.1 hne').1).trans (by decide), ((h.2.1 hne').2.1 rfl).trans (by decide)⟩

/-- Claim C7: when the reschedule condition holds but the lock extension
reports failure, the invocation stops without enqueuing another run and
without releasing the lock. -/
theorem runWorker_extendFails (cfg : Nat) (fetch : RefreshTokenBySlug → FetchResult)
    (getSingleToken : String → String)
    (popped : List RefreshTokenBySlug) (s : InvocationState)
    (hne : popped ≠ [])
    (hs : processAll fetch "opensea" getSingleToken popped initialState = (s, false))
    (hcond : s.rateLimitExpiredIn ≠ 0 ∨ popped.length = cfg * 1 ∨ s.retry = true) :
    (runWorker cfg fetch getSingleToken false popped).enqueueDelayMs = none ∧
    (runWorker cfg fetch getSingleToken false popped).lockReleased = false := by
  have hE : popped.isEmpty = false := by
    simpa [List.isEmpty_iff] using hne
  have hcond2 : ¬s.rateLimitExpiredIn = 0 ∨ popped.length = cfg ∨ s.retry = true := by
    simpa using hcond
  simp [runWorker, hE, hs, hcond2]

/-- Witness for C7: one popped request whose fetch yields a continuation sets
the retry flag, so the reschedule condition holds; with the lock extension
failing, nothing is enqueued and the lock is not released. -/
theorem runWorker_extendFails_witness :
    (runWorker 3 (fun _ => .success ["m3"] (some "next")) (fun _ => "0")
        false [contReq]).enqueueDelayMs = none ∧
    (runWorker 3 (fun _ => .success ["m3"] (some "next")) (fun _ => "0")
        false [contReq]).lockReleased = false :=
  runWorker_extendFails 3 (fun _ => .success ["m3"] (some "next")) (fun _ => "0")
    [contReq]
    { retry := true
      rateLimitExpiredIn := 0
      metadata := ["m3"]
      fetchCalls := [("0xbbb", "doodles", none)]
      backlogPushes :=
        [((⟨"doodles", "0xbbb", "collection-doodles", some "next"⟩ :
            RefreshTokenBySlug), true)]
      fetchQueueJobs := []
      collectionMetadataUpdates := [] }
    (by decide) (by decide) (Or.inr (Or.inr rfl))

/-- The fetch collaborator under which `norespReq` raises an error carrying no
response object while every other request succeeds with one metadata item. -/
def norespFetch : RefreshTokenBySlug → FetchResult :=
  fun r => if r.slug = "clonex" then .failure none else .success ["m2"] none

/-- Claim C2 (evaluation at the failing input): in a batch of two where the
first request's fetch raises an error carrying no response object, the sibling
request still completes and its metadata is accumulated in the invocation
state, but the invocation as a whole fails: the catch handler's
`error.response.data` read throws, so the aggregate write dispatch never
happens, no lock-extend is attempted, nothing is re-enqueued and the lock is
not released. -/
theorem runWorker_noResponseError_eval :
    runWorker 5 norespFetch (fun _ => "0") true [norespReq, contReq] =
      { state :=
          { retry := false
            rateLimitExpiredIn := 0
            metadata := ["m2"]
            fetchCalls := [("0xddd", "clonex", none), ("0xbbb", "doodles", none)]
            backlogPushes := []
            fetchQueueJobs := []
            collectionMetadataUpdates := [] }
        threw := true
        writeQueueDispatch := none
        lockExtendAttempt := none
        enqueueDelayMs := none
        lockReleased := false } := by
  rfl

end ProcessQueueBySlug
